import Mathlib

/-!
Shallow embedding of `demos/patchy_disc_env.cpp` (vmmc patchy-disc demo
driver).  The driver's hard-coded simulation parameters, the box and
cell-list setup, the flattening of particle data into the engine's C
arrays, the callback binding, and the 1000-batch reporting loop are
translated into executable Lean definitions; claims about the driver are
then settled as theorems about these definitions.  Quantities the C++
code stores in `double`s are modelled as exact rationals where the source
arithmetic is exact, and as real numbers where `sqrt` and `pi` enter.
Line numbers in doc comments refer to `demos/patchy_disc_env.cpp`.
-/

set_option maxRecDepth 100000

namespace PatchyDiscDemo

/-- `unsigned int dimension = 2;` (line 166; identically line 34). -/
def dimension : ℕ := 2

/-- `unsigned int nParticles = 1000;` (line 167; identically line 35). -/
def nParticles : ℕ := 1000

/-- `double interactionEnergy = 8.0;` (line 168). -/
def interactionEnergy : ℚ := 8

/-- `double interactionRange = 0.1;` (line 169). -/
def interactionRange : ℚ := 1/10

/-- `double density = 0.2;` (line 170). -/
def density : ℚ := 1/5

/-- `unsigned int maxInteractions = 3;` (line 172). -/
def maxInteractions : ℕ := 3

/-- `baseLength = std::pow((nParticles*M_PI)/(4.0*density), 1.0/2.0);`
(line 186; the `dimension == 2` branch is taken since `dimension = 2`). -/
noncomputable def baseLength : ℝ :=
  Real.sqrt ((nParticles * Real.pi) / (4 * (density : ℝ)))

/-- The loop at lines 190-192: `boxSize.push_back(baseLength)` once per
dimension. -/
noncomputable def boxSize : List ℝ :=
  (List.range dimension).map (fun _ => baseLength)

/-- The cutoff expression passed to `cells.initialise` at line 207 (and at
line 77 inside the `PatchyDiscEnv` constructor): `1 + 0.5*interactionRange`. -/
def cellCutoff : ℚ := 1 + (1/2) * interactionRange

/-- Modelled from the spec: `CellList.initialise` is not under `src/`; per
§4.2 it partitions each dimension into `floor(boxSize[d] / cutoff)` cells
(minimum 1).  `numCells L c` is that per-dimension cell count. -/
def numCells (L c : ℚ) : ℤ := max 1 ⌊L / c⌋

/-- Modelled from the spec: per §4.2, `cellSize[d] = boxSize[d] / numCells[d]`. -/
def cellSize (L c : ℚ) : ℚ := L / (numCells L c : ℚ)

/-- The loop at lines 227-237 sets `isIsotropic[i] = false` for every
particle index `i` ("Set all particles as anisotropic.", line 236). -/
def isIsotropic : List Bool := (List.range nParticles).map (fun _ => false)

/-- The copy loop at lines 227-233, which fills a C array row by row:
row `i` holds the `d` components of particle `i`, so index `d*i + j`
holds component `j` of particle `i`. -/
def flattenRows (d : ℕ) (f : ℕ → ℕ → ℝ) : ℕ → List ℝ
  | 0 => []
  | n + 1 => flattenRows d f n ++ (List.range d).map (f n)

/-- `coordinates[dimension*i + j] = particles[i].position[j]` (line 231),
for an arbitrary particle configuration `pos` (positions are produced by
the random initialiser, so they are a parameter here). -/
def coordinates (pos : ℕ → ℕ → ℝ) : List ℝ := flattenRows dimension pos nParticles

/-- `orientations[dimension*i + j] = particles[i].orientation[j]` (line 232). -/
def orientations (ornt : ℕ → ℕ → ℝ) : List ℝ := flattenRows dimension ornt nParticles

/-- The four `PatchyDisc` member functions that lines 242-250 bind the
engine callbacks to. -/
inductive ModelOp where
  | computeEnergy
  | computePairEnergy
  | computeInteractions
  | applyPostMoveUpdates
deriving DecidableEq

/-- `vmmc::CallbackFunctions` (line 241): which model operation each of the
four callback slots is bound to. -/
structure CallbackFunctions where
  energyCallback : ModelOp
  pairEnergyCallback : ModelOp
  interactionsCallback : ModelOp
  postMoveCallback : ModelOp
deriving DecidableEq

/-- Lines 243-250: `energyCallback ← PatchyDisc::computeEnergy`,
`pairEnergyCallback ← PatchyDisc::computePairEnergy`,
`interactionsCallback ← PatchyDisc::computeInteractions`,
`postMoveCallback ← PatchyDisc::applyPostMoveUpdates`. -/
def demoCallbacks : CallbackFunctions :=
  ⟨ModelOp.computeEnergy, ModelOp.computePairEnergy,
   ModelOp.computeInteractions, ModelOp.applyPostMoveUpdates⟩

/-- The constructor argument list of `vmmc::VMMC` in the order used at
lines 263-264 (and 133-134). -/
structure EngineArgs where
  nParticles : ℕ
  dimension : ℕ
  coordinates : List ℝ
  orientations : List ℝ
  translationStep : ℚ
  rotationStep : ℚ
  clusterParam1 : ℚ
  clusterParam2 : ℚ
  maxInteractions : ℕ
  boxSize : List ℝ
  isIsotropic : List Bool
  verbose : Bool
  callbacks : CallbackFunctions

/-- The engine construction at lines 263-264:
`vmmc::VMMC vmmc(nParticles, dimension, coordinates, orientations, 0.15,
0.2, 0.5, 0.5, maxInteractions, &boxSize[0], isIsotropic, false, callbacks);`
with `0.15 = 3/20`, `0.2 = 1/5`, `0.5 = 1/2` exact. -/
noncomputable def engineArgs (pos ornt : ℕ → ℕ → ℝ) : EngineArgs :=
  ⟨nParticles, dimension, coordinates pos, orientations ornt,
   3/20, 1/5, 1/2, 1/2, maxInteractions, boxSize, isIsotropic, false,
   demoCallbacks⟩

/-- `double) (i+1)*1000` — the first value handed to `printf` at line 277,
i.e. the `sweeps` field of the report line after batch `i`. -/
def reportSweeps (i : ℕ) : ℕ := (i + 1) * 1000

/-- `vmmc += 10*nParticles;` (line 270): elementary moves requested from
the engine in one reporting batch. -/
def movesPerBatch : ℕ := 10 * nParticles

/-- Cumulative elementary moves requested from the engine after batch `i`
(batches `0 .. i` have each requested `movesPerBatch` moves). -/
def cumulativeMoves (i : ℕ) : ℕ := (i + 1) * movesPerBatch

/-- Observable actions of one iteration of the reporting loop
(lines 267-278). -/
inductive LoopEvent where
  | engineStep (moves : ℕ)
  | trajectoryAppend (dim : ℕ) (isFirstFrame : Bool)
  | reportLine (sweeps : ℕ)
deriving DecidableEq

/-- Body of loop iteration `i` (lines 269-277): step the engine by
`10*nParticles` moves, append one trajectory frame (`isFirstFrame` exactly
when `i == 0`, lines 273-274), print one report line. -/
def batchBody (i : ℕ) : List LoopEvent :=
  [LoopEvent.engineStep movesPerBatch,
   LoopEvent.trajectoryAppend dimension (i == 0),
   LoopEvent.reportLine (reportSweeps i)]

/-- The full event trace of the loop `for (i=0; i<1000; i++)` at
lines 267-278, with an engine that completes every batch. -/
def driverEvents : List LoopEvent := (List.range 1000).flatMap batchBody

/-- The sweeps values of the report lines in a trace, in order. -/
def reportValues (evs : List LoopEvent) : List ℕ :=
  evs.filterMap fun e =>
    match e with
    | LoopEvent.reportLine s => some s
    | _ => none

/-- The (dimension, isFirstFrame) argument pairs of the trajectory-writer
calls in a trace, in order. -/
def trajCalls (evs : List LoopEvent) : List (ℕ × Bool) :=
  evs.filterMap fun e =>
    match e with
    | LoopEvent.trajectoryAppend d b => some (d, b)
    | _ => none

/-- The per-batch move counts requested from the engine in a trace. -/
def stepMoves (evs : List LoopEvent) : List ℕ :=
  evs.filterMap fun e =>
    match e with
    | LoopEvent.engineStep m => some m
    | _ => none

/-- Modelled from the spec: the engine's failure channel.  The `vmmc::VMMC`
class is not under `src/`; per §4.5/§7 an unrecoverable engine state is an
error the driver must propagate, modelled as a C++ exception escaping
`vmmc += 10*nParticles`. -/
inductive EngineError where
  | unrecoverable
deriving DecidableEq

/-- The reporting loop of lines 267-278 with a fallible engine step: the
loop body has no handler, so an error thrown by `vmmc += 10*nParticles`
ends the iteration before the trajectory append and the report line, and
no later iteration runs.  Returns the events that did occur and the
propagated error, if any. -/
def runBatches (step : ℕ → Except EngineError Unit) :
    ℕ → List LoopEvent × Option EngineError
  | 0 => ([], none)
  | n + 1 =>
    match runBatches step n with
    | (evs, some e) => (evs, some e)
    | (evs, none) =>
      match step n with
      | Except.error e => (evs ++ [LoopEvent.engineStep movesPerBatch], some e)
      | Except.ok _ => (evs ++ batchBody n, none)

/-- An engine that reports an unrecoverable state on its first batch. -/
def stepFail : ℕ → Except EngineError Unit :=
  fun _ => Except.error EngineError.unrecoverable

/-- The fields `int width, height;` of `PatchyDiscEnv` (line 43). -/
structure PatchyDiscEnvRec where
  width : Int
  height : Int

/-- The assignments `width = a; height = b;` at lines 46-47 of the
`PatchyDiscEnv(int a, int b)` constructor. -/
def initEnv (a b : Int) : PatchyDiscEnvRec := ⟨a, b⟩

/-- `int area(){return width * height;}` (line 154). -/
def PatchyDiscEnvRec.area (e : PatchyDiscEnvRec) : Int := e.width * e.height

/-- Observable top-level actions of the program (`main` plus the
`PatchyDiscEnv` constructor it invokes). -/
inductive ProgEvent where
  | vmdScript
  | cellListInit (cutoff : ℚ)
  | randomConfigGen
  | engineConstruct
  | printArea (value : Int)
  | runLoop
deriving DecidableEq

/-- Recogniser for engine-construction events. -/
def isEngineConstruct : ProgEvent → Bool
  | ProgEvent.engineConstruct => true
  | _ => false

/-- Recogniser for VMD-script-write events. -/
def isVmdScript : ProgEvent → Bool
  | ProgEvent.vmdScript => true
  | _ => false

/-- Recogniser for cell-list-initialisation events. -/
def isCellListInit : ProgEvent → Bool
  | ProgEvent.cellListInit _ => true
  | _ => false

/-- Recogniser for random-configuration-generation events. -/
def isRandomConfigGen : ProgEvent → Bool
  | ProgEvent.randomConfigGen => true
  | _ => false

/-- The observable actions of the `PatchyDiscEnv` constructor body
(lines 45-137): `io.vmdScript` (line 73), `cells.initialise` with cutoff
`1 + 0.5*interactionRange` (line 77), `initialise.random` (line 90), and
the full-argument `vmmc::VMMC` construction (lines 133-134). -/
def envCtorEvents : List ProgEvent :=
  [ProgEvent.vmdScript, ProgEvent.cellListInit cellCutoff,
   ProgEvent.randomConfigGen, ProgEvent.engineConstruct]

/-- The observable actions of the main-body setup (lines 196-264):
`io.vmdScript` (line 203), `cells.initialise` (line 207),
`initialise.random` (line 220), and the `vmmc::VMMC` construction
(lines 263-264). -/
def mainSetupEvents : List ProgEvent :=
  [ProgEvent.vmdScript, ProgEvent.cellListInit cellCutoff,
   ProgEvent.randomConfigGen, ProgEvent.engineConstruct]

/-- The observable action trace of `main` (lines 158-284):
`PatchyDiscEnv env(3,4)` runs the constructor (line 160), then
`std::cout << "area: " << env.area()` (line 162), then the main-body setup
(lines 196-264), then the reporting loop (lines 267-278). -/
def mainEvents : List ProgEvent :=
  envCtorEvents ++ [ProgEvent.printArea (initEnv 3 4).area] ++
    mainSetupEvents ++ [ProgEvent.runLoop]

/-- Modelled from the spec: the `PatchyDisc` class body is not under
`src/`; per §4.4 it keeps a running total-energy accumulator read by
`getEnergy` and refreshed incrementally as moves are applied.  Only that
per-object mutable state matters for the frame claim, so it is the whole
modelled state. -/
structure PatchyDiscState where
  energy : ℝ

/-- `PatchyDisc::getEnergy` (read at line 277): the running total energy. -/
def PatchyDiscState.getEnergy (p : PatchyDiscState) : ℝ := p.energy

/-- Each `std::bind(&PatchyDisc::..., patchyDisc, ...)` at lines 243-250
receives `patchyDisc` by value, so each of the four callback slots owns
its own copy of the model object. -/
structure BoundCallbacks where
  energyCopy : PatchyDiscState
  pairEnergyCopy : PatchyDiscState
  interactionsCopy : PatchyDiscState
  postMoveCopy : PatchyDiscState

/-- The four bind expressions at lines 243-250: every slot starts as a
copy of the driver's `patchyDisc`. -/
def bindCallbacks (p : PatchyDiscState) : BoundCallbacks := ⟨p, p, p, p⟩

/-- The driver's view: its own `patchyDisc` object (line 210) plus the
bound callback copies handed to the engine (lines 241-264). -/
structure DriverModel where
  patchyDisc : PatchyDiscState
  callbacks : BoundCallbacks

/-- The state right after setup: the driver's `patchyDisc` and the four
freshly bound copies. -/
def initDriverModel (p : PatchyDiscState) : DriverModel := ⟨p, bindCallbacks p⟩

/-- One engine invocation of the post-move callback: it mutates the
callback slot's own copy of the model object and nothing else. -/
def applyPostMoveUpdate (upd : PatchyDiscState → PatchyDiscState)
    (s : DriverModel) : DriverModel :=
  ⟨s.patchyDisc,
   ⟨s.callbacks.energyCopy, s.callbacks.pairEnergyCopy,
    s.callbacks.interactionsCopy, upd s.callbacks.postMoveCopy⟩⟩

/-- Any sequence of post-move callback invocations performed by the engine
during the run. -/
def runPostMoves : List (PatchyDiscState → PatchyDiscState) → DriverModel → DriverModel
  | [], s => s
  | u :: us, s => runPostMoves us (applyPostMoveUpdate u s)

/-! ## Helper lemmas -/

theorem flattenRows_length (d : ℕ) (f : ℕ → ℕ → ℝ) :
    ∀ n, (flattenRows d f n).length = d * n
  | 0 => rfl
  | n + 1 => by
    rw [flattenRows, List.length_append, flattenRows_length d f n]
    simp [Nat.mul_succ]

theorem flattenRows_get (d : ℕ) (f : ℕ → ℕ → ℝ) :
    ∀ (n i j : ℕ), i < n → j < d →
      ∀ (h : d * i + j < (flattenRows d f n).length),
        (flattenRows d f n).get ⟨d * i + j, h⟩ = f i j := by
  intro n
  induction n with
  | zero => intro i j hi; omega
  | succ n ih =>
    intro i j hi hj h
    rw [List.get_eq_getElem]
    show (flattenRows d f n ++ (List.range d).map (f n))[d * i + j] = f i j
    by_cases hin : i < n
    · have hlt : d * i + j < (flattenRows d f n).length := by
        rw [flattenRows_length]
        calc d * i + j < d * i + d := by omega
          _ = d * (i + 1) := by ring
          _ ≤ d * n := Nat.mul_le_mul_left d hin
      rw [List.getElem_append_left hlt]
      have hg := ih i j hin hj hlt
      rwa [List.get_eq_getElem] at hg
    · have hieq : i = n := by omega
      subst hieq
      have hge : (flattenRows d f i).length ≤ d * i + j := by
        rw [flattenRows_length]; omega
      rw [List.getElem_append_right hge]
      have hidx : d * i + j - (flattenRows d f i).length = j := by
        rw [flattenRows_length]; omega
      simp only [hidx, List.getElem_map, List.getElem_range]

theorem reportValues_flatMap (n : ℕ) :
    reportValues ((List.range n).flatMap batchBody) = (List.range n).map reportSweeps := by
  induction n with
  | zero => rfl
  | succ n ih =>
    rw [List.range_succ, List.flatMap_append, List.map_append]
    unfold reportValues at ih ⊢
    rw [List.filterMap_append, ih]
    rfl

theorem trajCalls_flatMap (n : ℕ) :
    trajCalls ((List.range n).flatMap batchBody) =
      (List.range n).map (fun i => (dimension, i == 0)) := by
  induction n with
  | zero => rfl
  | succ n ih =>
    rw [List.range_succ, List.flatMap_append, List.map_append]
    unfold trajCalls at ih ⊢
    rw [List.filterMap_append, ih]
    rfl

theorem stepMoves_flatMap (n : ℕ) :
    stepMoves ((List.range n).flatMap batchBody) = List.replicate n movesPerBatch := by
  induction n with
  | zero => rfl
  | succ n ih =>
    rw [List.range_succ, List.flatMap_append, List.replicate_succ']
    unfold stepMoves at ih ⊢
    rw [List.filterMap_append, ih]
    rfl

theorem runBatches_ok (step : ℕ → Except EngineError Unit) :
    ∀ n, (∀ i, i < n → step i = Except.ok ()) →
      runBatches step n = ((List.range n).flatMap batchBody, none) := by
  intro n
  induction n with
  | zero => intro _; rfl
  | succ n ih =>
    intro h
    rw [runBatches, ih (fun i hi => h i (by omega)), List.range_succ, List.flatMap_append]
    have hs : step n = Except.ok () := h n (by omega)
    rw [hs]
    rfl

theorem runBatches_absorb (step : ℕ → Except EngineError Unit)
    (n : ℕ) (evs : List LoopEvent) (e : EngineError)
    (h : runBatches step n = (evs, some e)) :
    ∀ m, n ≤ m → runBatches step m = (evs, some e) := by
  intro m
  induction m with
  | zero =>
    intro hm
    have hn0 : n = 0 := by omega
    subst hn0
    exact h
  | succ m ih =>
    intro hm
    rcases Nat.lt_or_ge n (m + 1) with hlt | hge
    · have hm' := ih (by omega)
      rw [runBatches, hm']
    · have hn : n = m + 1 := by omega
      subst hn
      exact h

theorem cellSize_ge (L c : ℚ) (hc : 0 < c) (hL : c ≤ L) : c ≤ cellSize L c := by
  have hq : (1 : ℚ) ≤ L / c := (one_le_div hc).mpr hL
  have hn1 : (1 : ℤ) ≤ ⌊L / c⌋ := by
    rwa [Int.le_floor, Int.cast_one]
  have hmax : numCells L c = ⌊L / c⌋ := max_eq_right hn1
  have hfl : ((⌊L / c⌋ : ℤ) : ℚ) ≤ L / c := Int.floor_le _
  have hnpos : (0 : ℚ) < ((⌊L / c⌋ : ℤ) : ℚ) := by
    have hz : (0 : ℤ) < ⌊L / c⌋ := by omega
    exact_mod_cast hz
  rw [cellSize, hmax, le_div_iff₀ hnpos]
  calc c * ((⌊L / c⌋ : ℤ) : ℚ) = ((⌊L / c⌋ : ℤ) : ℚ) * c := by ring
    _ ≤ (L / c) * c := mul_le_mul_of_nonneg_right hfl (le_of_lt hc)
    _ = L := div_mul_cancel₀ L (ne_of_gt hc)

theorem runPostMoves_patchyDisc :
    ∀ (us : List (PatchyDiscState → PatchyDiscState)) (s : DriverModel),
      (runPostMoves us s).patchyDisc = s.patchyDisc := by
  intro us
  induction us with
  | nil => intro s; rfl
  | cons u us ih =>
    intro s
    rw [runPostMoves, ih]
    rfl

/-! ## Claim theorems -/

/-- C1 counterexample: the claim says the cutoff passed to
`CellList.initialise` is at least the particle diameter plus the patch
interaction range, i.e. at least `1 + 0.1 = 1.1`; but line 207 passes
`1 + 0.5*interactionRange = 1.05 < 1.1`. -/
theorem c1_counterexample : cellCutoff < 11/10 := by
  norm_num [cellCutoff, interactionRange]

/-- C1 (amended): the cutoff passed to `CellList.initialise` is
`1 + 0.5*interactionRange = 1.05`, i.e. the particle diameter plus half
the patch interaction range; and every cell of the cell list has side
length at least that cutoff (for any box side at least one cutoff long,
per the spec-modelled `CellList.initialise` geometry). -/
theorem c1_cell_cutoff :
    cellCutoff = 21/20 ∧
      ∀ L : ℚ, cellCutoff ≤ L → cellCutoff ≤ cellSize L cellCutoff := by
  constructor
  · norm_num [cellCutoff, interactionRange]
  · intro L hL
    exact cellSize_ge L cellCutoff (by norm_num [cellCutoff, interactionRange]) hL

/-- C1 witness: the cell-side bound instantiated at box side 63. -/
theorem c1_cell_cutoff_witness :
    cellCutoff ≤ 63 ∧ cellCutoff ≤ cellSize 63 cellCutoff :=
  ⟨by norm_num [cellCutoff, interactionRange],
    c1_cell_cutoff.2 63 (by norm_num [cellCutoff, interactionRange])⟩

/-- C2 counterexample: after the first batch the report line's sweeps
field is `(0+1)*1000 = 1000` (line 277) while the cumulative number of
elementary moves requested from the engine is `1 * 10*nParticles = 10000`
(line 270), so the sweeps field does not equal the cumulative move
count. -/
theorem c2_counterexample : reportSweeps 0 ≠ cumulativeMoves 0 := by
  decide

/-- C2 (amended): each report line printed by the driver has the form
`sweeps = <value>, energy = <total energy, 4 decimal places>`, where the
sweeps field after batch `i` equals `(i+1)*1000` — one tenth of the
cumulative number of elementary moves requested from the engine
(`10*nParticles = 10000` per batch) — and the trace of report lines
carries exactly these values. -/
theorem c2_report_sweeps :
    (∀ i : ℕ, reportSweeps i = (i + 1) * 1000 ∧
      10 * reportSweeps i = cumulativeMoves i) ∧
      reportValues driverEvents = (List.range 1000).map reportSweeps := by
  refine ⟨fun i => ⟨rfl, ?_⟩, ?_⟩
  · show 10 * ((i + 1) * 1000) = (i + 1) * movesPerBatch
    show 10 * ((i + 1) * 1000) = (i + 1) * (10 * nParticles)
    show 10 * ((i + 1) * 1000) = (i + 1) * (10 * 1000)
    ring
  · rw [driverEvents, reportValues_flatMap]

/-- C3: the driver loop executes exactly 1000 reporting batches, each
requesting `10*nParticles = 10000` elementary moves from the engine, and
prints exactly 1000 report lines whose sweeps values are strictly
increasing `1000, 2000, ..., 1000000`. -/
theorem c3_reporting_loop :
    reportValues driverEvents = (List.range 1000).map reportSweeps ∧
      (reportValues driverEvents).length = 1000 ∧
      (reportValues driverEvents).Pairwise (· < ·) ∧
      reportSweeps 0 = 1000 ∧ reportSweeps 999 = 1000000 ∧
      stepMoves driverEvents = List.replicate 1000 movesPerBatch ∧
      movesPerBatch = 10 * nParticles ∧ movesPerBatch = 10000 := by
  have hrv : reportValues driverEvents = (List.range 1000).map reportSweeps := by
    rw [driverEvents, reportValues_flatMap]
  refine ⟨hrv, ?_, ?_, by decide, by decide, ?_, rfl, by decide⟩
  · rw [hrv]
    simp
  · rw [hrv, List.pairwise_map]
    refine (List.pairwise_lt_range 1000).imp ?_
    intro a b h
    show (a + 1) * 1000 < (b + 1) * 1000
    omega
  · rw [driverEvents, stepMoves_flatMap]

/-- C4 counterexample: the claimed numeric value of the box base length,
`sqrt(1000*pi/(4*0.2)) ≈ 62.80`, is wrong: the base length is below 62.7
(it is `sqrt(1250*pi) ≈ 62.67`). -/
theorem c4_counterexample : baseLength < 62.7 := by
  have harg : ((nParticles : ℝ) * Real.pi) / (4 * ((density : ℚ) : ℝ)) =
      1250 * Real.pi := by
    rw [show ((density : ℚ) : ℝ) = 1/5 by norm_num [density]]
    norm_num [nParticles]
    ring
  rw [baseLength, harg, Real.sqrt_lt' (by norm_num)]
  nlinarith [Real.pi_lt_d6]

/-- C4 (amended): for dimension 2, `nParticles = 1000` and
`density = 0.2`, the computed box base length equals
`sqrt(nParticles*pi/(4*density)) ≈ 62.67` (between 62.66 and 62.67),
every component of the box-size vector equals this base length (square
box of dimension 2), and the cell-list cutoff used is
`1 + 0.5*interactionRange = 1.05`. -/
theorem c4_box_geometry :
    baseLength = Real.sqrt ((nParticles * Real.pi) / (4 * (density : ℝ))) ∧
      62.66 < baseLength ∧ baseLength < 62.67 ∧
      boxSize = [baseLength, baseLength] ∧
      boxSize.length = dimension ∧
      cellCutoff = 1 + (1/2) * interactionRange ∧ cellCutoff = 21/20 := by
  have harg : ((nParticles : ℝ) * Real.pi) / (4 * ((density : ℚ) : ℝ)) =
      1250 * Real.pi := by
    rw [show ((density : ℚ) : ℝ) = 1/5 by norm_num [density]]
    norm_num [nParticles]
    ring
  refine ⟨rfl, ?_, ?_, ?_, ?_, rfl, by norm_num [cellCutoff, interactionRange]⟩
  · rw [baseLength, harg, Real.lt_sqrt (by norm_num)]
    nlinarith [Real.pi_gt_d6]
  · rw [baseLength, harg, Real.sqrt_lt' (by norm_num)]
    nlinarith [Real.pi_lt_d6]
  · rfl
  · rfl

/-- C5: if the external engine reports an unrecoverable state during any
batch (modelled as an error escaping `vmmc += 10*nParticles`), the driver
stops the reporting loop and propagates the error: only the batches
completed before the failure have report lines and trajectory frames, and
the error is the loop's outcome. -/
theorem c5_engine_failure_stops_loop
    (step : ℕ → Except EngineError Unit) (k : ℕ) (e : EngineError)
    (hk : k < 1000) (hok : ∀ i, i < k → step i = Except.ok ())
    (herr : step k = Except.error e) :
    (runBatches step 1000).2 = some e ∧
      reportValues (runBatches step 1000).1 = (List.range k).map reportSweeps ∧
      (reportValues (runBatches step 1000).1).length = k ∧
      (trajCalls (runBatches step 1000).1).length = k := by
  have hk1 : runBatches step (k + 1) =
      ((List.range k).flatMap batchBody ++ [LoopEvent.engineStep movesPerBatch],
        some e) := by
    rw [runBatches, runBatches_ok step k hok, herr]
  have habs := runBatches_absorb step (k + 1) _ e hk1 1000 (by omega)
  rw [habs]
  have hrv : reportValues
      ((List.range k).flatMap batchBody ++ [LoopEvent.engineStep movesPerBatch]) =
      (List.range k).map reportSweeps := by
    unfold reportValues
    rw [List.filterMap_append]
    have hfm := reportValues_flatMap k
    unfold reportValues at hfm
    rw [hfm]
    simp
  have htc : trajCalls
      ((List.range k).flatMap batchBody ++ [LoopEvent.engineStep movesPerBatch]) =
      (List.range k).map (fun i => (dimension, i == 0)) := by
    unfold trajCalls
    rw [List.filterMap_append]
    have hfm := trajCalls_flatMap k
    unfold trajCalls at hfm
    rw [hfm]
    simp
  refine ⟨rfl, hrv, ?_, ?_⟩
  · rw [hrv]
    simp
  · rw [htc]
    simp

/-- C5 witness: an engine failing on its very first batch propagates the
error out of a 1000-batch run with zero report lines and zero trajectory
frames. -/
theorem c5_engine_failure_stops_loop_witness :
    (0 : ℕ) < 1000 ∧ stepFail 0 = Except.error EngineError.unrecoverable ∧
      (runBatches stepFail 1000).2 = some EngineError.unrecoverable ∧
      reportValues (runBatches stepFail 1000).1 = (List.range 0).map reportSweeps ∧
      (reportValues (runBatches stepFail 1000).1).length = 0 ∧
      (trajCalls (runBatches stepFail 1000).1).length = 0 := by
  have h := c5_engine_failure_stops_loop stepFail 0 EngineError.unrecoverable
    (by decide) (fun i hi => absurd hi (Nat.not_lt_zero i)) rfl
  exact ⟨by decide, rfl, h.1, h.2.1, h.2.2.1, h.2.2.2⟩

/-- C6: the trajectory writer is called exactly once per reporting batch
with dimension and first-frame flag, and `isFirstFrame` is true on the
first batch (i = 0) and never true on any later batch (lines 273-274). -/
theorem c6_trajectory_first_frame :
    trajCalls driverEvents = (List.range 1000).map (fun i => (dimension, i == 0)) ∧
      (trajCalls driverEvents).length = 1000 ∧
      trajCalls driverEvents =
        (dimension, true) :: List.replicate 999 (dimension, false) := by
  have htc : trajCalls driverEvents =
      (List.range 1000).map (fun i => (dimension, i == 0)) := by
    rw [driverEvents, trajCalls_flatMap]
  refine ⟨htc, ?_, ?_⟩
  · rw [htc]
    simp
  · rw [htc]
    decide

/-- C7: the anisotropy-flag loop at lines 227-237 marks every particle
anisotropic: `isIsotropic[i] = false` for every index below
`nParticles`. -/
theorem c7_all_anisotropic :
    isIsotropic.length = nParticles ∧
      ∀ (i : ℕ) (h : i < isIsotropic.length), isIsotropic.get ⟨i, h⟩ = false := by
  constructor
  · simp [isIsotropic]
  · intro i h
    simp [isIsotropic, List.get_eq_getElem]

/-- C7 witness: the first particle's flag is false. -/
theorem c7_all_anisotropic_witness :
    ∃ h : 0 < isIsotropic.length, isIsotropic.get ⟨0, h⟩ = false :=
  ⟨by decide, c7_all_anisotropic.2 0 (by decide)⟩

/-- C8 counterexample: the program does not construct the external engine
exactly once: `main` constructs `PatchyDiscEnv(3,4)` whose constructor
builds one full-argument `vmmc::VMMC` (lines 133-134) and then builds a
second one itself (lines 263-264). -/
theorem c8_counterexample : ¬ mainEvents.countP isEngineConstruct = 1 := by
  decide

/-- C8 (amended): the program constructs the external engine twice — once
in the `PatchyDiscEnv` constructor and once in `main` — each time with
arguments in the order `(particleCount, dimension, coordinates,
orientations, translationStep, rotationStep, clusterParam1,
clusterParam2, maxInteractions, boxSize, isotropyFlags, verboseFlag,
callbacks)`, where coordinates and orientations are contiguous copies
satisfying `coordinates[dimension*i + j] = particles[i].position[j]` and
`orientations[dimension*i + j] = particles[i].orientation[j]`, and the
four callbacks are bound to the model's `computeEnergy`,
`computePairEnergy`, `computeInteractions` and `applyPostMoveUpdates`. -/
theorem c8_engine_args :
    mainEvents.countP isEngineConstruct = 2 ∧
      ∀ pos ornt : ℕ → ℕ → ℝ,
        (engineArgs pos ornt).nParticles = nParticles ∧
        (engineArgs pos ornt).dimension = dimension ∧
        (engineArgs pos ornt).translationStep = 3/20 ∧
        (engineArgs pos ornt).rotationStep = 1/5 ∧
        (engineArgs pos ornt).clusterParam1 = 1/2 ∧
        (engineArgs pos ornt).clusterParam2 = 1/2 ∧
        (engineArgs pos ornt).maxInteractions = maxInteractions ∧
        (engineArgs pos ornt).boxSize = boxSize ∧
        (engineArgs pos ornt).isIsotropic = isIsotropic ∧
        (engineArgs pos ornt).verbose = false ∧
        (engineArgs pos ornt).callbacks = demoCallbacks ∧
        (engineArgs pos ornt).coordinates.length = dimension * nParticles ∧
        (engineArgs pos ornt).orientations.length = dimension * nParticles ∧
        (∀ i j : ℕ, i < nParticles → j < dimension →
          ∃ h : dimension * i + j < (engineArgs pos ornt).coordinates.length,
            (engineArgs pos ornt).coordinates.get ⟨dimension * i + j, h⟩ = pos i j) ∧
        (∀ i j : ℕ, i < nParticles → j < dimension →
          ∃ h : dimension * i + j < (engineArgs pos ornt).orientations.length,
            (engineArgs pos ornt).orientations.get ⟨dimension * i + j, h⟩ =
              ornt i j) := by
  refine ⟨by decide, fun pos ornt => ?_⟩
  have hclen : (engineArgs pos ornt).coordinates.length = dimension * nParticles :=
    flattenRows_length dimension pos nParticles
  have holen : (engineArgs pos ornt).orientations.length = dimension * nParticles :=
    flattenRows_length dimension ornt nParticles
  refine ⟨rfl, rfl, rfl, rfl, rfl, rfl, rfl, rfl, rfl, rfl, rfl, hclen, holen,
    ?_, ?_⟩
  · intro i j hi hj
    have hb : dimension * i + j < (engineArgs pos ornt).coordinates.length := by
      rw [hclen]
      have hd : dimension = 2 := rfl
      have hn : nParticles = 1000 := rfl
      rw [hd] at hj ⊢
      rw [hn] at hi ⊢
      omega
    exact ⟨hb, flattenRows_get dimension pos nParticles i j hi hj hb⟩
  · intro i j hi hj
    have hb : dimension * i + j < (engineArgs pos ornt).orientations.length := by
      rw [holen]
      have hd : dimension = 2 := rfl
      have hn : nParticles = 1000 := rfl
      rw [hd] at hj ⊢
      rw [hn] at hi ⊢
      omega
    exact ⟨hb, flattenRows_get dimension ornt nParticles i j hi hj hb⟩

/-- C8 witness: the coordinate-layout property instantiated at the first
particle's first component of a concrete configuration. -/
theorem c8_engine_args_witness :
    ∃ h : dimension * 0 + 0 <
        (engineArgs (fun _ _ => (0 : ℝ)) (fun _ _ => (1 : ℝ))).coordinates.length,
      (engineArgs (fun _ _ => (0 : ℝ)) (fun _ _ => (1 : ℝ))).coordinates.get
        ⟨dimension * 0 + 0, h⟩ = 0 := by
  have h := c8_engine_args.2 (fun _ _ => (0 : ℝ)) (fun _ _ => (1 : ℝ))
  exact h.2.2.2.2.2.2.2.2.2.2.2.2.2.1 0 0 (by decide) (by decide)

/-- C9: before the main-body simulation setup begins, `main` constructs
`PatchyDiscEnv(3,4)` whose constructor performs a complete, independent
duplicate of the entire setup (VMD script write, cell-list build, random
configuration, engine construction), and then `main` prints `area: 12`,
the product of the constructor arguments 3 and 4. -/
theorem c9_ctor_duplicates_setup :
    mainEvents = envCtorEvents ++ [ProgEvent.printArea 12] ++
        mainSetupEvents ++ [ProgEvent.runLoop] ∧
      envCtorEvents = mainSetupEvents ∧
      (initEnv 3 4).area = 12 ∧
      mainEvents.countP isVmdScript = 2 ∧
      mainEvents.countP isCellListInit = 2 ∧
      mainEvents.countP isRandomConfigGen = 2 ∧
      mainEvents.countP isEngineConstruct = 2 ∧
      mainEvents.take 4 = envCtorEvents := by
  refine ⟨rfl, rfl, rfl, ?_, ?_, ?_, ?_, rfl⟩ <;> decide

/-- C10: each of the four callbacks registered with the engine is bound
to its own copy of the `patchyDisc` object (`std::bind` copies the object
passed by value), so no sequence of post-move callback invocations
mutates the driver's original object, and the energy the driver reports
via `patchyDisc.getEnergy()` is read from an object no callback ever
mutated. -/
theorem c10_driver_object_unchanged
    (p : PatchyDiscState) (updates : List (PatchyDiscState → PatchyDiscState)) :
    (runPostMoves updates (initDriverModel p)).patchyDisc = p ∧
      (runPostMoves updates (initDriverModel p)).patchyDisc.getEnergy =
        p.getEnergy := by
  have h : (runPostMoves updates (initDriverModel p)).patchyDisc = p :=
    runPostMoves_patchyDisc updates (initDriverModel p)
  exact ⟨h, by rw [h]⟩

/-- C10 witness: a concrete post-move mutation (incrementing the bound
copy's energy) leaves the driver's object at its initial state. -/
theorem c10_driver_object_unchanged_witness :
    (runPostMoves [fun s => PatchyDiscState.mk (s.energy + 1)]
        (initDriverModel ⟨0⟩)).patchyDisc = ⟨0⟩ ∧
      (runPostMoves [fun s => PatchyDiscState.mk (s.energy + 1)]
        (initDriverModel ⟨0⟩)).patchyDisc.getEnergy =
        PatchyDiscState.getEnergy ⟨0⟩ :=
  c10_driver_object_unchanged ⟨0⟩ [fun s => PatchyDiscState.mk (s.energy + 1)]

end PatchyDiscDemo
